import Mathlib

set_option maxRecDepth 8192

/- Shallow embedding of the debate_ai repository's core:
   src/debate_ai/agent.py (Agent, AgentResponse, Vote),
   src/debate_ai/llm_provider.py (providers are modelled as functions from a
   prompt to either a generated string or an error message), and
   src/debate_ai/debate_graph.py (DebateState, DebateResult, DebateGraph:
   agent nodes, round controller, consensus check, continuation decision,
   and run).  Timestamps (datetime.now()) are modelled as an abstract
   monotone counter; Python str.lower is modelled characterwise for the
   ASCII range. -/

/- Vote.decision : Literal of agent.py line 22. -/
inductive Decision where
  | agree
  | disagree
  | needs_revision
  deriving DecidableEq, Repr

/- AgentResponse of agent.py lines 9-15. -/
structure AgentResponse where
  agent_id : String
  role : String
  content : String
  timestamp : Nat
  deriving DecidableEq, Repr

/- Vote of agent.py lines 18-24. -/
structure Vote where
  agent_id : String
  decision : Decision
  reasoning : String
  timestamp : Nat
  deriving DecidableEq, Repr

/- Agent of agent.py lines 27-42.  An LLM provider (llm_provider.py) is a
   function from the prompt to either the generated text (ok) or the
   message of the exception raised by generate (error); MockLLMProvider r
   is fun _ => .ok r and FailingLLMProvider m is fun _ => .error m. -/
structure Agent where
  agent_id : String
  role : String
  llm_provider : Option (String → Except String String)

/-- Whether pat is a leading segment of s (character lists). -/
def leadsList : List Char → List Char → Bool
  | [], _ => true
  | _ :: _, [] => false
  | p :: ps, c :: cs => p == c && leadsList ps cs

/-- Whether pat occurs as a contiguous segment; with strContains this mirrors the Python substring test pat in s. -/
def occursIn (pat : List Char) : List Char → Bool
  | [] => pat.isEmpty
  | c :: cs => leadsList pat (c :: cs) || occursIn pat cs

/-- Python substring containment pat in s. -/
def strContains (s pat : String) : Bool := occursIn pat.data s.data

/-- Python str.lower, modelled characterwise (faithful on the ASCII range). -/
def pyLower (s : String) : String := String.mk (s.data.map Char.toLower)

/-- Agent.process (agent.py lines 44-57): delegate to the provider when present, otherwise the backward-compatibility fallback string. -/
def Agent.process (a : Agent) (prompt : String) : Except String String :=
  match a.llm_provider with
  | some gen => gen prompt
  | none => .ok ("Agent " ++ a.agent_id ++ " (" ++ a.role ++ ") received: " ++ prompt)

/-- Agent.process_with_metadata (agent.py lines 59-74): wrap the processed content with agent metadata; a provider failure propagates. -/
def Agent.process_with_metadata (a : Agent) (prompt : String) (now : Nat) :
    Except String AgentResponse :=
  match a.process prompt with
  | .ok content => .ok ⟨a.agent_id, a.role, content, now⟩
  | .error e => .error e

/-- The voting prompt built in Agent.vote (agent.py lines 86-98). -/
def votePrompt (topic : String) (current_responses : List String) : String :=
  let responses_text := String.intercalate "\n" (current_responses.map (fun r => "- " ++ r))
  "Topic: " ++ topic ++ "\n\nCurrent responses:\n" ++ responses_text ++
    "\n\nBased on the above responses, do you agree with the current consensus, disagree, or think it needs revision?\nRespond with one of: agree, disagree, needs_revision\n\nAlso provide your reasoning."

/-- The decision heuristic of Agent.vote (agent.py lines 106-113): lowercase the produced text, then test substring containment of agree and disagree. -/
def decideFromText (response : String) : Decision :=
  let response_lower := pyLower response
  if strContains response_lower "agree" && !strContains response_lower "disagree" then
    Decision.agree
  else if strContains response_lower "disagree" then
    Decision.disagree
  else
    Decision.needs_revision

/-- Agent.vote (agent.py lines 76-120): build the prompt, obtain text from the provider (a provider failure propagates, there is no try block) or the fallback text, and parse the decision. -/
def Agent.vote (a : Agent) (topic : String) (current_responses : List String) (now : Nat) :
    Except String Vote :=
  let prompt := votePrompt topic current_responses
  match a.llm_provider with
  | some gen =>
    match gen prompt with
    | .ok response => .ok ⟨a.agent_id, decideFromText response, response, now⟩
    | .error e => .error e
  | none =>
    .ok ⟨a.agent_id, decideFromText "agree - All points are valid",
      "agree - All points are valid", now⟩

/- DebateState of debate_graph.py lines 9-15; the responses channel is append-only (operator.add). -/
structure DebateState where
  topic : String
  responses : List AgentResponse
  round_number : Nat
  consensus_reached : Bool
  deriving DecidableEq, Repr

/- DebateResult of debate_graph.py lines 18-26. -/
structure DebateResult where
  topic : String
  responses : List AgentResponse
  round_number : Nat
  consensus_reached : Bool
  deriving DecidableEq, Repr

/-- DebateResult.__init__ (debate_graph.py lines 21-26). -/
def DebateResult.ofState (s : DebateState) : DebateResult :=
  ⟨s.topic, s.responses, s.round_number, s.consensus_reached⟩

/-- The prompt construction of the agent node (debate_graph.py lines 90-100): the whole transcript accumulated so far, or the initial-response prompt when it is empty. -/
def buildPrompt (state : DebateState) : String :=
  if state.responses.isEmpty then
    "Topic: " ++ state.topic ++ "\n\nProvide your initial response:"
  else
    let context := String.intercalate "\n"
      (state.responses.map (fun resp => resp.agent_id ++ " (" ++ resp.role ++ "): " ++ resp.content))
    "Topic: " ++ state.topic ++ "\n\nPrevious responses:\n" ++ context ++ "\n\nYour response:"

/-- The try/except of the agent node (debate_graph.py lines 102-116): a successful computation passes through, a raised exception of any type becomes an error-marker response built from str of the exception. -/
def catchToResponse (ε : Type) (msg : ε → String) (aid arole : String) (now : Nat) :
    Except ε AgentResponse → AgentResponse
  | .ok r => r
  | .error e => ⟨aid, arole, "[Error: " ++ msg e ++ "]", now⟩

/-- The node function produced by DebateGraph._create_agent_node (debate_graph.py lines 88-116). -/
def agentNode (a : Agent) (state : DebateState) (now : Nat) : AgentResponse :=
  catchToResponse String id a.agent_id a.role now
    (a.process_with_metadata (buildPrompt state) now)

/-- One agent node execution followed by the graph applying its single-response write to the responses channel. -/
def appendTurn (state : DebateState) (a : Agent) : DebateState :=
  { state with responses := state.responses ++ [agentNode a state state.responses.length] }

/-- One round: the chain agent_0 -> agent_1 -> ... -> agent_N-1 wired in _build_graph (debate_graph.py lines 45-63), each node seeing the writes of the previous ones. -/
def runTurns (agents : List Agent) (state : DebateState) : DebateState :=
  agents.foldl appendTurn state

/-- The response-contents context of _check_for_consensus (debate_graph.py line 153): the content of every response of the whole transcript. -/
def voteContext (state : DebateState) : List String :=
  state.responses.map (fun resp => resp.content)

/-- The sequential voting loop of _check_for_consensus (debate_graph.py lines 152-157): each agent in list order; an uncaught vote failure propagates. -/
def collectVotes (agents : List Agent) (topic : String) (ctx : List String) (now : Nat) :
    Except String (List Vote) :=
  match agents with
  | [] => .ok []
  | a :: rest =>
    match a.vote topic ctx now with
    | .error e => .error e
    | .ok v =>
      match collectVotes rest topic ctx now with
      | .error e => .error e
      | .ok vs => .ok (v :: vs)

/-- DebateGraph._check_for_consensus (debate_graph.py lines 138-160). -/
def checkForConsensus (agents : List Agent) (state : DebateState) : Except String Bool :=
  if state.round_number < 1 || state.responses.isEmpty then
    .ok false
  else
    match collectVotes agents state.topic (voteContext state) state.responses.length with
    | .error e => .error e
    | .ok votes => .ok (votes.all (fun v => v.decision == Decision.agree))

/-- DebateGraph._round_controller_node (debate_graph.py lines 120-136): the round counter is incremented in the update, but the consensus check receives the node's input state, whose round_number is still the pre-increment value. -/
def roundController (agents : List Agent) (check_consensus : Bool) (state : DebateState) :
    Except String DebateState :=
  if check_consensus then
    match checkForConsensus agents state with
    | .ok c => .ok { state with round_number := state.round_number + 1, consensus_reached := c }
    | .error e => .error e
  else
    .ok { state with round_number := state.round_number + 1 }

/-- DebateGraph._should_continue (debate_graph.py lines 162-181), evaluated on the state after the round controller's updates. -/
def shouldContinue (max_rounds : Nat) (state : DebateState) : Bool :=
  if state.consensus_reached then false
  else decide (state.round_number < max_rounds)

/-- The node names added in _build_graph (debate_graph.py lines 46-51): one per agent plus the round controller. -/
def graphNodes (n : Nat) : List String :=
  (List.range n).map (fun i => "agent_" ++ toString i) ++ ["round_controller"]

/-- set_entry_point is called only when the agent list is nonempty (debate_graph.py lines 54-55). -/
def entryPointSet (n : Nat) : Bool := !(n == 0)

/-- The targets of the conditional edges added from the round controller (debate_graph.py lines 66-73); END is the graph library's terminal marker. -/
def conditionalTargets : List String := ["agent_0", "END"]

/-- Modelled from the graph library's compile-time validation, which workflow.compile() (debate_graph.py line 75) performs on the wiring of _build_graph: compilation fails when no entry point was set, or when an edge targets a name that is neither a declared node nor END. -/
def compileGraph (n : Nat) : Except String Unit :=
  if !entryPointSet n then
    .error "Graph must have an entrypoint: add at least one edge from the START node to another node"
  else if conditionalTargets.any (fun t => !(t == "END") && !(decide (t ∈ graphNodes n))) then
    .error "Found edge ending at unknown node"
  else
    .ok ()

/-- The fresh initial state of run (debate_graph.py lines 200-205). -/
def initState (topic : String) : DebateState :=
  ⟨topic, [], 0, false⟩

/-- The graph execution loop: one round of agent turns, the round controller, then the continuation decision; fuel bounds the iterations (run always supplies enough, since every iteration increments the round counter and continuation requires it to stay below max_rounds). -/
def runLoop (agents : List Agent) (max_rounds : Nat) (check_consensus : Bool) :
    Nat → DebateState → Except String DebateState
  | 0, state => .ok state
  | fuel + 1, state =>
    match roundController agents check_consensus (runTurns agents state) with
    | .error e => .error e
    | .ok s2 =>
      if shouldContinue max_rounds s2 then
        runLoop agents max_rounds check_consensus fuel s2
      else
        .ok s2

/-- DebateGraph(agents) followed by DebateGraph.run(topic, max_rounds, check_consensus) (debate_graph.py lines 32-39 and 183-208): graph compilation happens at construction, then the compiled graph is invoked on the fresh initial state. -/
def runDebate (agents : List Agent) (topic : String) (max_rounds : Nat)
    (check_consensus : Bool) : Except String DebateResult :=
  match compileGraph agents.length with
  | .error e => .error e
  | .ok _ =>
    match runLoop agents max_rounds check_consensus (max_rounds + 1) (initState topic) with
    | .error e => .error e
    | .ok t => .ok (DebateResult.ofState t)

/-- Replication of a per-round block, used to state the round-major response order. -/
def repeatedBlock (α : Type) (k : Nat) (block : List α) : List α :=
  match k with
  | 0 => []
  | k + 1 => block ++ repeatedBlock α k block

example : decideFromText "agree - All points are valid" = Decision.agree := by decide
example : decideFromText "I disagree" = Decision.disagree := by decide
example : decideFromText "AGREE" = Decision.agree := by decide
example : decideFromText "hmm" = Decision.needs_revision := by decide

/- Basic unfolding and preservation lemmas about the embedded operations. -/

lemma runLoop_fuel_zero (agents : List Agent) (R : Nat) (cc : Bool) (s : DebateState) :
    runLoop agents R cc 0 s = .ok s := rfl

lemma runLoop_fuel_succ_ok (agents : List Agent) (R : Nat) (cc : Bool) (fuel : Nat)
    (s s2 : DebateState) (h : roundController agents cc (runTurns agents s) = .ok s2) :
    runLoop agents R cc (fuel + 1) s =
      if shouldContinue R s2 then runLoop agents R cc fuel s2 else .ok s2 := by
  conv_lhs => rw [runLoop, h]

lemma roundController_disabled (agents : List Agent) (s : DebateState) :
    roundController agents false s = .ok { s with round_number := s.round_number + 1 } := rfl

lemma roundController_enabled_ok (agents : List Agent) (s : DebateState) (c : Bool)
    (h : checkForConsensus agents s = .ok c) :
    roundController agents true s =
      .ok { s with round_number := s.round_number + 1, consensus_reached := c } := by
  unfold roundController
  rw [h]
  rfl

lemma runTurns_nil (s : DebateState) : runTurns [] s = s := rfl

lemma runTurns_cons (a : Agent) (as : List Agent) (s : DebateState) :
    runTurns (a :: as) s = runTurns as (appendTurn s a) := rfl

lemma agentNode_agent_id (a : Agent) (s : DebateState) (now : Nat) :
    (agentNode a s now).agent_id = a.agent_id := by
  unfold agentNode Agent.process_with_metadata catchToResponse
  cases a.process (buildPrompt s) <;> rfl

lemma agentNode_role (a : Agent) (s : DebateState) (now : Nat) :
    (agentNode a s now).role = a.role := by
  unfold agentNode Agent.process_with_metadata catchToResponse
  cases a.process (buildPrompt s) <;> rfl

lemma appendTurn_topic (s : DebateState) (a : Agent) : (appendTurn s a).topic = s.topic := rfl

lemma appendTurn_round (s : DebateState) (a : Agent) :
    (appendTurn s a).round_number = s.round_number := rfl

lemma appendTurn_consensus (s : DebateState) (a : Agent) :
    (appendTurn s a).consensus_reached = s.consensus_reached := rfl

lemma runTurns_topic (as : List Agent) : ∀ s : DebateState, (runTurns as s).topic = s.topic := by
  induction as with
  | nil => intro s; rfl
  | cons a as ih => intro s; rw [runTurns_cons, ih, appendTurn_topic]

lemma runTurns_round (as : List Agent) :
    ∀ s : DebateState, (runTurns as s).round_number = s.round_number := by
  induction as with
  | nil => intro s; rfl
  | cons a as ih => intro s; rw [runTurns_cons, ih, appendTurn_round]

lemma runTurns_consensus (as : List Agent) :
    ∀ s : DebateState, (runTurns as s).consensus_reached = s.consensus_reached := by
  induction as with
  | nil => intro s; rfl
  | cons a as ih => intro s; rw [runTurns_cons, ih, appendTurn_consensus]

lemma runTurns_ids (as : List Agent) :
    ∀ s : DebateState, (runTurns as s).responses.map (fun x => x.agent_id) =
      s.responses.map (fun x => x.agent_id) ++ as.map (fun x => x.agent_id) := by
  induction as with
  | nil => intro s; simp [runTurns_nil]
  | cons a as ih =>
    intro s
    rw [runTurns_cons, ih]
    simp [appendTurn, agentNode_agent_id]

lemma runTurns_length (as : List Agent) (s : DebateState) :
    (runTurns as s).responses.length = s.responses.length + as.length := by
  have h := congrArg List.length (runTurns_ids as s)
  simpa using h

lemma repeatedBlock_zero (α : Type) (b : List α) : repeatedBlock α 0 b = [] := rfl

lemma repeatedBlock_succ (α : Type) (k : Nat) (b : List α) :
    repeatedBlock α (k + 1) b = b ++ repeatedBlock α k b := rfl

lemma repeatedBlock_one (α : Type) (b : List α) : repeatedBlock α 1 b = b := by
  rw [repeatedBlock_succ, repeatedBlock_zero, List.append_nil]

lemma shouldContinue_eq (R : Nat) (s : DebateState) (h : s.consensus_reached = false) :
    shouldContinue R s = decide (s.round_number < R) := by
  unfold shouldContinue
  rw [h]
  rfl

lemma runLoop_last (agents : List Agent) (R fuel : Nat) (s : DebateState)
    (hc : s.consensus_reached = false) (hR : R ≤ s.round_number + 1) :
    runLoop agents R false (fuel + 1) s =
      .ok { runTurns agents s with round_number := (runTurns agents s).round_number + 1 } := by
  rw [runLoop_fuel_succ_ok agents R false fuel s _ (roundController_disabled agents (runTurns agents s))]
  have hcons : ({ runTurns agents s with
      round_number := (runTurns agents s).round_number + 1 } : DebateState).consensus_reached = false := by
    simpa [runTurns_consensus] using hc
  rw [shouldContinue_eq R _ hcons]
  have hlt : ¬ (({ runTurns agents s with
      round_number := (runTurns agents s).round_number + 1 } : DebateState).round_number < R) := by
    simp only [runTurns_round]
    omega
  simp [hlt]

lemma runLoop_disabled (agents : List Agent) (R : Nat) (fuel : Nat) :
    ∀ s : DebateState, s.consensus_reached = false → R ≤ s.round_number + fuel →
    ∃ t, runLoop agents R false (fuel + 1) s = .ok t
      ∧ t.topic = s.topic
      ∧ t.consensus_reached = false
      ∧ t.round_number = max (s.round_number + 1) R
      ∧ t.responses.map (fun x => x.agent_id) =
          s.responses.map (fun x => x.agent_id) ++
            repeatedBlock String (t.round_number - s.round_number) (agents.map (fun x => x.agent_id))
      ∧ t.responses.length =
          s.responses.length + (t.round_number - s.round_number) * agents.length := by
  induction fuel with
  | zero =>
    intro s hc hR
    simp only [Nat.add_zero] at hR
    refine ⟨_, runLoop_last agents R 0 s hc (by omega), ?_, ?_, ?_, ?_, ?_⟩
    · simpa using runTurns_topic agents s
    · exact (runTurns_consensus agents s).trans hc
    · simp only [runTurns_round]
      omega
    · simp only [runTurns_round]
      have hd : s.round_number + 1 - s.round_number = 1 := by omega
      rw [hd, repeatedBlock_one]
      exact runTurns_ids agents s
    · simp only [runTurns_round]
      have hd : s.round_number + 1 - s.round_number = 1 := by omega
      rw [hd, Nat.one_mul]
      exact runTurns_length agents s
  | succ f ih =>
    intro s hc hR
    by_cases hstop : R ≤ s.round_number + 1
    · refine ⟨_, runLoop_last agents R (f + 1) s hc hstop, ?_, ?_, ?_, ?_, ?_⟩
      · simpa using runTurns_topic agents s
      · exact (runTurns_consensus agents s).trans hc
      · simp only [runTurns_round]
        omega
      · simp only [runTurns_round]
        have hd : s.round_number + 1 - s.round_number = 1 := by omega
        rw [hd, repeatedBlock_one]
        exact runTurns_ids agents s
      · simp only [runTurns_round]
        have hd : s.round_number + 1 - s.round_number = 1 := by omega
        rw [hd, Nat.one_mul]
        exact runTurns_length agents s
    · push_neg at hstop
      set s2 : DebateState :=
        { runTurns agents s with round_number := (runTurns agents s).round_number + 1 } with hs2
      have hc2 : s2.consensus_reached = false := by
        simpa [hs2, runTurns_consensus] using hc
      have hr2 : s2.round_number = s.round_number + 1 := by
        simp [hs2, runTurns_round]
      have hcont : shouldContinue R s2 = true := by
        rw [shouldContinue_eq R s2 hc2, hr2]
        simp only [decide_eq_true_eq]
        omega
      have hstep : runLoop agents R false (f + 1 + 1) s = runLoop agents R false (f + 1) s2 := by
        rw [runLoop_fuel_succ_ok agents R false (f + 1) s s2
          (roundController_disabled agents (runTurns agents s)), hcont]
        simp
      obtain ⟨t, ht, htop, htc, htr, htids, htlen⟩ := ih s2 hc2 (by omega)
      refine ⟨t, by rw [hstep]; exact ht, ?_, htc, ?_, ?_, ?_⟩
      · rw [htop, hs2]
        simpa using runTurns_topic agents s
      · rw [htr, hr2]
        omega
      · have hids2 : s2.responses.map (fun x => x.agent_id) =
            s.responses.map (fun x => x.agent_id) ++ agents.map (fun x => x.agent_id) := by
          simpa [hs2] using runTurns_ids agents s
        rw [htids, hids2, hr2] at *
        have hdiff : t.round_number - s.round_number = (t.round_number - (s.round_number + 1)) + 1 := by
          rw [htr, hr2] at *
          omega
        rw [hdiff, repeatedBlock_succ, List.append_assoc]
      · have hlen2 : s2.responses.length = s.responses.length + agents.length := by
          simpa [hs2] using runTurns_length agents s
        rw [htlen, hlen2, hr2]
        have hdiff : t.round_number - s.round_number = (t.round_number - (s.round_number + 1)) + 1 := by
          rw [htr, hr2] at *
          omega
        rw [hdiff, Nat.succ_mul]
        omega

lemma compileGraph_succ (n : Nat) : compileGraph (n + 1) = .ok () := by
  have hmem : "agent_0" ∈ graphNodes (n + 1) := by
    unfold graphNodes
    apply List.mem_append_left
    exact List.mem_map.mpr ⟨0, List.mem_range.mpr (Nat.succ_pos n), rfl⟩
  unfold compileGraph entryPointSet conditionalTargets
  simp [hmem]

lemma length_pos_of_ne_nil (agents : List Agent) (h : agents ≠ []) :
    ∃ m, agents.length = m + 1 := by
  cases agents with
  | nil => exact absurd rfl h
  | cons a as => exact ⟨as.length, rfl⟩

lemma runDebate_disabled (agents : List Agent) (topic : String) (R : Nat)
    (h : agents ≠ []) :
    ∃ t, runDebate agents topic R false = .ok (DebateResult.ofState t)
      ∧ t.topic = topic
      ∧ t.consensus_reached = false
      ∧ t.round_number = max 1 R
      ∧ t.responses.map (fun x => x.agent_id) =
          repeatedBlock String (max 1 R) (agents.map (fun x => x.agent_id))
      ∧ t.responses.length = (max 1 R) * agents.length := by
  obtain ⟨m, hm⟩ := length_pos_of_ne_nil agents h
  obtain ⟨t, ht, htop, htc, htr, htids, htlen⟩ :=
    runLoop_disabled agents R R (initState topic) rfl (by simp [initState])
  have hmax : max (0 + 1) R = max 1 R := by omega
  refine ⟨t, ?_, ?_, htc, ?_, ?_, ?_⟩
  · unfold runDebate
    rw [hm, compileGraph_succ, ht]
  · simpa [initState] using htop
  · rw [htr]
    simp [initState, hmax]
  · have := htids
    simp only [initState] at this
    rw [this]
    simp [htr, initState, hmax]
  · rw [htlen]
    simp [htr, initState, hmax]

lemma decideFromText_fallback : decideFromText "agree - All points are valid" = Decision.agree := by
  decide

lemma vote_providerless (a : Agent) (h : a.llm_provider = none) (topic : String)
    (rs : List String) (now : Nat) :
    a.vote topic rs now = .ok ⟨a.agent_id, Decision.agree, "agree - All points are valid", now⟩ := by
  unfold Agent.vote
  rw [h, decideFromText_fallback]

lemma collectVotes_providerless (agents : List Agent) (topic : String) (ctx : List String)
    (now : Nat) (h : ∀ a ∈ agents, a.llm_provider = none) :
    collectVotes agents topic ctx now =
      .ok (agents.map (fun a => ⟨a.agent_id, Decision.agree, "agree - All points are valid", now⟩)) := by
  induction agents with
  | nil => rfl
  | cons a rest ih =>
    unfold collectVotes
    rw [vote_providerless a (h a (List.mem_cons_self a rest)) topic ctx now,
      ih (fun b hb => h b (List.mem_cons_of_mem a hb))]
    rfl

lemma checkForConsensus_round_zero (agents : List Agent) (s : DebateState)
    (h : s.round_number = 0) : checkForConsensus agents s = .ok false := by
  unfold checkForConsensus
  rw [h]
  rfl

lemma checkForConsensus_poll (agents : List Agent) (s : DebateState)
    (h1 : 1 ≤ s.round_number) (h2 : s.responses ≠ []) :
    checkForConsensus agents s =
      match collectVotes agents s.topic (voteContext s) s.responses.length with
      | .error e => .error e
      | .ok votes => .ok (votes.all (fun v => v.decision == Decision.agree)) := by
  unfold checkForConsensus
  have hg : (s.round_number < 1 || s.responses.isEmpty) = false := by
    simp [List.isEmpty_iff, h2]
    omega
  rw [hg]
  rfl

lemma checkForConsensus_providerless (agents : List Agent) (s : DebateState)
    (h : ∀ a ∈ agents, a.llm_provider = none)
    (h1 : 1 ≤ s.round_number) (h2 : s.responses ≠ []) :
    checkForConsensus agents s = .ok true := by
  rw [checkForConsensus_poll agents s h1 h2,
    collectVotes_providerless agents s.topic (voteContext s) s.responses.length h]
  simp [List.all_map]

lemma shouldContinue_consensus (R : Nat) (s : DebateState) (h : s.consensus_reached = true) :
    shouldContinue R s = false := by
  unfold shouldContinue
  rw [h]
  rfl

lemma runDebate_providerless_consensus (agents : List Agent) (topic : String) (R : Nat)
    (hnone : ∀ a ∈ agents, a.llm_provider = none) (hne : agents ≠ []) (hR : 2 ≤ R) :
    ∃ t, runDebate agents topic R true = .ok (DebateResult.ofState t)
      ∧ t.consensus_reached = true
      ∧ t.round_number = 2
      ∧ t.responses.length = 2 * agents.length := by
  obtain ⟨m, hm⟩ := length_pos_of_ne_nil agents hne
  obtain ⟨f, hf⟩ : ∃ f, R = f + 2 := ⟨R - 2, by omega⟩
  set s0 := initState topic with hs0
  set s1 := runTurns agents s0 with hs1
  have hr1 : s1.round_number = 0 := by
    rw [hs1, runTurns_round, hs0]
    rfl
  have hchk1 : checkForConsensus agents s1 = .ok false :=
    checkForConsensus_round_zero agents s1 hr1
  set s2 : DebateState := ⟨s1.topic, s1.responses, s1.round_number + 1, false⟩ with hs2
  have hctrl1 : roundController agents true s1 = .ok s2 :=
    roundController_enabled_ok agents s1 false hchk1
  have hc2 : s2.consensus_reached = false := by rw [hs2]
  have hrn2 : s2.round_number = 1 := by rw [hs2]; simp [hr1]
  have hcont1 : shouldContinue R s2 = true := by
    rw [shouldContinue_eq R s2 hc2, hrn2]
    simp only [decide_eq_true_eq]
    omega
  set s3 := runTurns agents s2 with hs3
  have hr3 : s3.round_number = 1 := by
    rw [hs3, runTurns_round, hrn2]
  have hlen3 : s3.responses.length = s2.responses.length + agents.length := by
    rw [hs3]
    exact runTurns_length agents s2
  have hne3 : s3.responses ≠ [] := by
    apply List.ne_nil_of_length_pos
    rw [hlen3, hm]
    omega
  have hchk3 : checkForConsensus agents s3 = .ok true :=
    checkForConsensus_providerless agents s3 hnone (by omega) hne3
  set s4 : DebateState := ⟨s3.topic, s3.responses, s3.round_number + 1, true⟩ with hs4
  have hctrl3 : roundController agents true s3 = .ok s4 :=
    roundController_enabled_ok agents s3 true hchk3
  have hc4 : s4.consensus_reached = true := by rw [hs4]
  have hcont4 : shouldContinue R s4 = false := shouldContinue_consensus R s4 hc4
  rw [hf] at hcont1 hcont4
  have hloop : runLoop agents R true (R + 1) s0 = .ok s4 := by
    rw [hf]
    rw [runLoop_fuel_succ_ok agents (f + 2) true (f + 2) s0 s2 (by rw [← hs1]; exact hctrl1)]
    rw [hcont1]
    simp only [if_true]
    show runLoop agents (f + 2) true (f + 1 + 1) s2 = Except.ok s4
    rw [runLoop_fuel_succ_ok agents (f + 2) true (f + 1) s2 s4 (by rw [← hs3]; exact hctrl3)]
    rw [hcont4]
    simp
  refine ⟨s4, ?_, hc4, ?_, ?_⟩
  · unfold runDebate
    rw [hm, compileGraph_succ, ← hs0, hloop]
  · rw [hs4]
    show s3.round_number + 1 = 2
    omega
  · rw [hs4]
    show s3.responses.length = 2 * agents.length
    rw [hlen3, hs2]
    show s1.responses.length + agents.length = 2 * agents.length
    rw [hs1, runTurns_length agents s0, hs0]
    show 0 + agents.length + agents.length = 2 * agents.length
    omega

/- Spec-side definition (refinement comparison for claim C7). -/

/-- The decision rule exactly as the spec words it, applied to the raw produced text: case-sensitive substring containment of agree and disagree, with no lowercasing step. -/
def specDecisionFromText (text : String) : Decision :=
  if strContains text "agree" && !strContains text "disagree" then
    Decision.agree
  else if strContains text "disagree" then
    Decision.disagree
  else
    Decision.needs_revision

/-- No provider failures: every agent's process succeeds on every prompt. -/
def NoFailures (agents : List Agent) : Prop :=
  ∀ a ∈ agents, ∀ p : String, ∃ c, a.process p = Except.ok c

/- Concrete fixtures used by witnesses and counterexamples. -/

/-- A provider-less analyst agent. -/
def agA : Agent := ⟨"agent-1", "analyst", none⟩

/-- A provider-less critic agent. -/
def agB : Agent := ⟨"agent-2", "critic", none⟩

/-- An agent whose provider always fails with message boom (FailingLLMProvider). -/
def failAgent : Agent := ⟨"agent-2", "critic", some (fun _ => Except.error "boom")⟩

/-- An agent whose provider always succeeds (MockLLMProvider). -/
def okAgent : Agent := ⟨"agent-1", "analyst", some (fun _ => Except.ok "fine")⟩

/-- An agent whose provider always answers with agreeing text. -/
def voterAgree : Agent := ⟨"p1", "analyst", some (fun _ => Except.ok "agree fully")⟩

/-- An agent whose provider always answers with disagreeing text. -/
def voterDisagree : Agent := ⟨"p2", "critic", some (fun _ => Except.ok "i disagree")⟩

/-- A debate state with one recorded round and a one-response transcript. -/
def stW : DebateState := ⟨"t", [⟨"x", "r", "c", 0⟩], 1, false⟩

/-- A two-round transcript state: responses with contents one and two, one recorded round. -/
def exState8 : DebateState := ⟨"t", [⟨"a", "r", "one", 0⟩, ⟨"a", "r", "two", 1⟩], 1, false⟩

/-- An agent whose vote text agrees exactly when the full two-element context is in the prompt, and is noncommittal otherwise. -/
def probeAgent : Agent :=
  ⟨"a", "r", some (fun p =>
    if p = votePrompt "t" ["one", "two"] then Except.ok "agree" else Except.ok "no comment")⟩

/-- The vote probeAgent casts when polled with only the latest-round content. -/
def vW8 : Vote := ⟨"a", Decision.needs_revision, "no comment", 0⟩

/-- An agent whose provider always succeeds with agreeing text, on turns and votes alike. -/
def cA : Agent := ⟨"c1", "analyst", some (fun _ => Except.ok "agree")⟩

/-- The same participant as cA except that its capability calls fail on turns: the provider raises boom on every turn prompt and still answers agreeing text on vote prompts (only vote prompts contain the Current responses header). -/
def cAfail : Agent :=
  ⟨"c1", "analyst", some (fun p =>
    if strContains p "Current responses" then Except.ok "agree" else Except.error "boom")⟩

/-- An agent that agrees unless the error marker appears in its prompt, in which case it answers disagreeing text. -/
def cB : Agent :=
  ⟨"c2", "critic", some (fun p =>
    if strContains p "[Error:" then Except.ok "i disagree" else Except.ok "agree")⟩

/-- C1: the code evaluated at the claim's own scenario: 2 participants whose votes are always agree, check_consensus enabled, max_rounds 5.  The run halts at round_number 2 with 4 responses (consensus is first detectable at the end of round 2), not at round_number 1 with 2 responses as the claim states, because the round controller hands _check_for_consensus the pre-increment state, whose round_number 0 fails the round_number >= 1 guard at the end of round 1. -/
theorem claim_C1_code_behavior :
    (runDebate [agA, agB] "topic" 5 true).map
      (fun r => (r.round_number, r.consensus_reached, r.responses.length)) =
      .ok (2, true, 4) := by
  rfl

/-- C2 counterexample: running the orchestrator on an empty participant list does not complete normally with zero responses; _build_graph never sets an entry point when the agent list is empty, so graph compilation fails at construction and run is never reached. -/
theorem claim_C2_counterexample :
    runDebate [] "topic" 1 false =
      .error "Graph must have an entrypoint: add at least one edge from the START node to another node" := by
  rfl

/-- C2 amended: constructing the debate graph with an empty participant list fails at graph compilation (no entry point is ever set, and the conditional edges target the nonexistent node agent_0), for every topic, round limit and consensus flag; no DebateResult is produced. -/
theorem claim_C2_empty_agents_error (topic : String) (R : Nat) (cc : Bool) :
    runDebate [] topic R cc =
      .error "Graph must have an entrypoint: add at least one edge from the START node to another node" := by
  rfl

/-- C3 counterexample: the count clause of the claim is false once consensus checking is enabled.  Two normally-completing runs over the same participants, max_rounds 3, check_consensus true: the failure-free run reaches consensus at the first poll and ends with 4 responses, while the run whose first participant fails on every turn ends with 6 — the turn failure is still converted into the error-marker response (same agent_id and role, content exactly the bracketed Error form with message boom), but that marker content flips the second participant's vote, no consensus is reached, and the run continues to max_rounds, so the total response count differs from the failure-free count. -/
theorem claim_C3_counterexample :
    (runDebate [cA, cB] "t" 3 true).map (fun r => r.responses.length) = .ok 4
    ∧ (runDebate [cAfail, cB] "t" 3 true).map (fun r => r.responses.length) = .ok 6
    ∧ (runDebate [cAfail, cB] "t" 3 true).map
        (fun r => r.responses.head?.map (fun x => (x.agent_id, x.role, x.content))) =
        .ok (some ("c1", "analyst", "[Error: boom]")) := by
  refine ⟨rfl, rfl, rfl⟩

/-- C3 amended: a failing capability call on a turn is not propagated: the turn appends a response with the same agent_id and role and content exactly of the form an open bracket, Error colon space, the failure message, a close bracket; and with consensus checking disabled the total response count equals agents.length times max 1 max_rounds for every pattern of provider failures, hence equals the failure-free count.  (With consensus checking enabled the marker content can alter later votes and hence the halting round, so the counts need not match; see the counterexample.) -/
theorem claim_C3_error_marker_and_count :
    (∀ (a : Agent) (state : DebateState) (m : String) (now : Nat),
        a.process (buildPrompt state) = .error m →
        agentNode a state now = ⟨a.agent_id, a.role, "[Error: " ++ m ++ "]", now⟩)
    ∧ (∀ (agents : List Agent) (topic : String) (R : Nat), agents ≠ [] →
        (runDebate agents topic R false).map (fun r => r.responses.length) =
          .ok (agents.length * max 1 R)) := by
  constructor
  · intro a state m now h
    unfold agentNode Agent.process_with_metadata
    rw [h]
    rfl
  · intro agents topic R hne
    obtain ⟨t, ht, _, _, htr, _, htlen⟩ := runDebate_disabled agents topic R hne
    rw [ht]
    simp [Except.map, DebateResult.ofState, htlen, Nat.mul_comm]

/-- C3 witness: the always-failing provider with message boom yields the error-marker response, and a 2-round single-agent run still has 2 responses. -/
theorem claim_C3_witness :
    agentNode failAgent (initState "t") 0 = ⟨"agent-2", "critic", "[Error: boom]", 0⟩
    ∧ (runDebate [failAgent] "t" 2 false).map (fun r => r.responses.length) = .ok 2 := by
  constructor
  · exact claim_C3_error_marker_and_count.1 failAgent (initState "t") "boom" 0 rfl
  · simpa using claim_C3_error_marker_and_count.2 [failAgent] "t" 2 (by simp)

/-- C4: with consensus checking disabled and no provider failures, every run over N >= 1 agents and R >= 1 rounds ends with round_number R, consensus_reached false, N times R responses, ordered round-major then participant-order-minor (the agent_id sequence is R repetitions of the agent list's ids). -/
theorem claim_C4_rounds_and_order (agents : List Agent) (topic : String) (R : Nat)
    (hne : agents ≠ []) (hR : 1 ≤ R) (_hnf : NoFailures agents) :
    (runDebate agents topic R false).map
      (fun r => (r.round_number, r.consensus_reached, r.responses.length,
        r.responses.map (fun x => x.agent_id))) =
      .ok (R, false, agents.length * R,
        repeatedBlock String R (agents.map (fun x => x.agent_id))) := by
  obtain ⟨t, ht, _, htc, htr, htids, htlen⟩ := runDebate_disabled agents topic R hne
  have hmax : max 1 R = R := by omega
  rw [ht]
  rw [hmax] at htr htids htlen
  simp [Except.map, DebateResult.ofState, htc, htr, htids, htlen, Nat.mul_comm]

/-- C4 witness: one never-failing agent, two rounds. -/
theorem claim_C4_witness :
    (runDebate [okAgent] "t" 2 false).map
      (fun r => (r.round_number, r.consensus_reached, r.responses.length,
        r.responses.map (fun x => x.agent_id))) =
      .ok (2, false, 2, ["agent-1", "agent-1"]) := by
  have h := claim_C4_rounds_and_order [okAgent] "t" 2 (by simp) (by omega)
    (by
      intro a ha p
      simp only [List.mem_singleton] at ha
      subst ha
      exact ⟨"fine", rfl⟩)
  simpa [repeatedBlock, okAgent] using h

/-- C5: max_rounds 0 still executes exactly one full round: round_number 1 and one response per agent, for every nonempty failure-free agent list (max_rounds is a post-round ceiling, not a pre-round gate). -/
theorem claim_C5_max_rounds_zero (agents : List Agent) (topic : String)
    (hne : agents ≠ []) (_hnf : NoFailures agents) :
    (runDebate agents topic 0 false).map (fun r => (r.round_number, r.responses.length)) =
      .ok (1, agents.length) := by
  obtain ⟨t, ht, _, _, htr, _, htlen⟩ := runDebate_disabled agents topic 0 hne
  rw [ht]
  simp [Except.map, DebateResult.ofState, htr, htlen]

/-- C5 witness: one never-failing agent with max_rounds 0. -/
theorem claim_C5_witness :
    (runDebate [okAgent] "t" 0 false).map (fun r => (r.round_number, r.responses.length)) =
      .ok (1, 1) := by
  have h := claim_C5_max_rounds_zero [okAgent] "t" (by simp)
    (by
      intro a ha p
      simp only [List.mem_singleton] at ha
      subst ha
      exact ⟨"fine", rfl⟩)
  simpa using h

/-- C6: whenever the vote-aggregation step actually polls (at least one recorded round and a nonempty transcript), the consensus verdict equals the all-agree fold over the returned votes, and it is true if and only if every returned vote's decision is agree; any disagree or needs_revision vote anywhere yields false (strict unanimity). -/
theorem claim_C6_unanimity (agents : List Agent) (s : DebateState) (vs : List Vote)
    (h1 : 1 ≤ s.round_number) (h2 : s.responses ≠ [])
    (hv : collectVotes agents s.topic (voteContext s) s.responses.length = .ok vs) :
    checkForConsensus agents s = .ok (vs.all (fun v => v.decision == Decision.agree))
    ∧ (checkForConsensus agents s = .ok true ↔ ∀ v ∈ vs, v.decision = Decision.agree) := by
  have heq : checkForConsensus agents s = .ok (vs.all (fun v => v.decision == Decision.agree)) := by
    rw [checkForConsensus_poll agents s h1 h2, hv]
  refine ⟨heq, ?_⟩
  rw [heq]
  simp [List.all_eq_true]

/-- C6 witness: one agreeing and one disagreeing voter yield verdict false. -/
theorem claim_C6_witness : checkForConsensus [voterAgree, voterDisagree] stW = .ok false := by
  have h := (claim_C6_unanimity [voterAgree, voterDisagree] stW
      [⟨"p1", Decision.agree, "agree fully", 1⟩, ⟨"p2", Decision.disagree, "i disagree", 1⟩]
      (by decide) (by simp [stW]) rfl).1
  have hall : ([⟨"p1", Decision.agree, "agree fully", 1⟩,
      ⟨"p2", Decision.disagree, "i disagree", 1⟩] : List Vote).all
        (fun v => v.decision == Decision.agree) = false := by decide
  rw [hall] at h
  exact h

/-- C7 counterexample: on the text AGREE the code's decision is agree (the text is lowercased first), while the claim's case-sensitive rule would give needs_revision, so the claim as stated is false at the input AGREE. -/
theorem claim_C7_counterexample :
    decideFromText "AGREE" = Decision.agree
    ∧ specDecisionFromText "AGREE" = Decision.needs_revision := by
  decide

/-- C7 amended: the decision is derived by applying the stated containment rule to the lowercased produced text: if it contains agree and not disagree the decision is agree, else if it contains disagree the decision is disagree, otherwise needs_revision. -/
theorem claim_C7_lowercased_rule (t : String) :
    decideFromText t = specDecisionFromText (pyLower t) := by
  rfl

/-- C8 counterexample: at a two-round transcript with contents one and two, the context the poll hands each participant is the full transcript's contents, not the latest round's: the probing participant votes agree exactly on the full two-element context, and the poll verdict is true; polled with only the latest-round content it would return needs_revision. -/
theorem claim_C8_counterexample :
    voteContext exState8 = ["one", "two"]
    ∧ checkForConsensus [probeAgent] exState8 = .ok true
    ∧ (probeAgent.vote "t" ["two"] 2).map (fun v => v.decision) = .ok Decision.needs_revision := by
  refine ⟨rfl, ?_, rfl⟩
  rfl

/-- C8 amended: whenever the consensus sub-protocol polls, every participant is asked sequentially in the fixed turn order, and each is passed the content values of the entire transcript accumulated so far (all rounds), as the response-contents context. -/
theorem claim_C8_full_transcript_poll :
    (∀ (agents : List Agent) (s : DebateState), 1 ≤ s.round_number → s.responses ≠ [] →
        checkForConsensus agents s =
          match collectVotes agents s.topic (s.responses.map (fun r => r.content))
              s.responses.length with
          | .error e => .error e
          | .ok votes => .ok (votes.all (fun v => v.decision == Decision.agree)))
    ∧ (∀ (a : Agent) (rest : List Agent) (topic : String) (ctx : List String) (now : Nat)
        (v : Vote), a.vote topic ctx now = .ok v →
        collectVotes (a :: rest) topic ctx now =
          match collectVotes rest topic ctx now with
          | .error e => .error e
          | .ok vs => .ok (v :: vs)) := by
  constructor
  · intro agents s h1 h2
    exact checkForConsensus_poll agents s h1 h2
  · intro a rest topic ctx now v hv
    simp [collectVotes, hv]

/-- C8 witness: the amended statement instantiated at the probing agent and the two-round state, and at a singleton poll exhibiting the sequential head step. -/
theorem claim_C8_witness :
    (checkForConsensus [probeAgent] exState8 =
      match collectVotes [probeAgent] exState8.topic
          (exState8.responses.map (fun r => r.content)) exState8.responses.length with
      | .error e => .error e
      | .ok votes => .ok (votes.all (fun v => v.decision == Decision.agree)))
    ∧ collectVotes [probeAgent] "t" ["c"] 0 =
        (match collectVotes [] "t" ["c"] 0 with
         | .error e => .error e
         | .ok vs => .ok (vW8 :: vs)) := by
  constructor
  · exact claim_C8_full_transcript_poll.1 [probeAgent] exState8 (by decide) (by simp [exState8])
  · exact claim_C8_full_transcript_poll.2 probeAgent [] "t" ["c"] 0 vW8 rfl

/-- C9: the per-turn wrapper is total and catches every exception of every type: an error of any type ε becomes the error-marker response built from its message, a success passes through unchanged, and the agent node is exactly this wrapper applied to process_with_metadata, so the turn step never raises. -/
theorem claim_C9_catch_any_exception :
    (∀ (ε : Type) (msg : ε → String) (aid arole : String) (now : Nat) (e : ε),
        catchToResponse ε msg aid arole now (.error e) =
          ⟨aid, arole, "[Error: " ++ msg e ++ "]", now⟩)
    ∧ (∀ (ε : Type) (msg : ε → String) (aid arole : String) (now : Nat) (r : AgentResponse),
        catchToResponse ε msg aid arole now (.ok r) = r)
    ∧ (∀ (a : Agent) (state : DebateState) (now : Nat),
        agentNode a state now =
          catchToResponse String id a.agent_id a.role now
            (a.process_with_metadata (buildPrompt state) now)) :=
  ⟨fun _ _ _ _ _ _ => rfl, fun _ _ _ _ _ _ => rfl, fun _ _ _ => rfl⟩

/-- C10: a participant without an LLM provider always votes agree with reasoning text agree - All points are valid, for every topic and context; hence a run over only provider-less participants with consensus checking on and max_rounds >= 2 reaches unanimous consensus at the first actual poll, halting with consensus_reached true at round_number 2 with two rounds of responses. -/
theorem claim_C10_providerless_always_agree :
    (∀ (a : Agent), a.llm_provider = none → ∀ (topic : String) (rs : List String) (now : Nat),
        a.vote topic rs now =
          .ok ⟨a.agent_id, Decision.agree, "agree - All points are valid", now⟩)
    ∧ (∀ (agents : List Agent) (topic : String) (R : Nat),
        (∀ a ∈ agents, a.llm_provider = none) → agents ≠ [] → 2 ≤ R →
        (runDebate agents topic R true).map
          (fun r => (r.consensus_reached, r.round_number, r.responses.length)) =
          .ok (true, 2, 2 * agents.length)) := by
  constructor
  · intro a h topic rs now
    exact vote_providerless a h topic rs now
  · intro agents topic R hnone hne hR
    obtain ⟨t, ht, hc, hr, hlen⟩ := runDebate_providerless_consensus agents topic R hnone hne hR
    rw [ht]
    simp [Except.map, DebateResult.ofState, hc, hr, hlen]

/-- C10 witness: a provider-less agent's vote, and a 2-agent provider-less run with max_rounds 3. -/
theorem claim_C10_witness :
    agA.vote "t" ["x"] 0 = .ok ⟨"agent-1", Decision.agree, "agree - All points are valid", 0⟩
    ∧ (runDebate [agA, agB] "t" 3 true).map
        (fun r => (r.consensus_reached, r.round_number, r.responses.length)) =
        .ok (true, 2, 4) := by
  constructor
  · exact claim_C10_providerless_always_agree.1 agA rfl "t" ["x"] 0
  · have h := claim_C10_providerless_always_agree.2 [agA, agB] "t" 3
      (by
        intro a ha
        simp only [List.mem_cons, List.mem_singleton] at ha
        rcases ha with rfl | rfl | h0
        · rfl
        · rfl
        · exact absurd h0 (List.not_mem_nil a))
      (by simp) (by omega)
    simpa using h
